import Mathlib

/-!
Verification of the claude-meilisearch repository against its specification.

The repository has two source files:
  * `app.py`     — a FastAPI service with `POST /collect`, `GET /search`,
                   `GET /chat/{uuid}` and `GET /health`, persisting chat
                   transcripts as `raw_json/<uuid>.json` files and as rows of a
                   DuckDB table `chat_data` (uuid VARCHAR PRIMARY KEY, ...).
  * `src/indexer.py` — a watchdog-based watcher that keeps a Meilisearch index
                   synchronized with the `raw_json` directory, with MD5-hash
                   based change detection.

This file shallowly embeds those programs: parsed JSON values become an
inductive `Json`; Python's dynamic-typing failures become an explicit
exception type `Exc` threaded through `Except`; the DuckDB table becomes a
list of rows; the filesystem becomes an association list from path to
content; external collaborators that the code only calls through an opaque
API (the MD5 hash, `json.loads` on watcher file bytes, the Meilisearch
add/delete calls) become function parameters, so every theorem about the
watcher holds for every behaviour of those collaborators.
-/

/-- A parsed JSON value (`json.loads` output).  Numbers are modelled as
integers; floating point is not needed by any claim. -/
inductive Json where
  | null
  | bool (b : Bool)
  | num (n : Int)
  | str (s : String)
  | arr (xs : List Json)
  | obj (fields : List (String × Json))
deriving Repr

/-- Exceptions the embedded Python code can raise.  `httpExc` is FastAPI's
`HTTPException(status_code, detail)`; the others stand for
`json.JSONDecodeError`, `AttributeError`, `TypeError`, `KeyError`, DuckDB's
primary-key `ConstraintException` and `IOError`/`OSError`. -/
inductive Exc where
  | jsonDecodeError
  | httpExc (status : Nat) (detail : String)
  | attrErr
  | typeErr
  | keyErr
  | constraintErr
  | ioErr
deriving Repr, DecidableEq

/-- Lookup in a Python dict represented as an association list
(first binding wins; the dicts produced by `json.loads` have unique keys). -/
def jsonLookup (fs : List (String × Json)) (k : String) : Option Json :=
  (fs.find? (fun kv => kv.1 == k)).map (fun kv => kv.2)

mutual
/-- Python `repr` of a JSON-derived value (used by `str` on containers);
string escaping inside `repr` of a `str` is not modelled — no theorem
evaluates it on strings containing quotes. -/
def pyRepr : Json → String
  | Json.null => "None"
  | Json.bool true => "True"
  | Json.bool false => "False"
  | Json.num n => toString n
  | Json.str s => "'" ++ s ++ "'"
  | Json.arr xs => "[" ++ pyReprList xs ++ "]"
  | Json.obj fs => "\x7b" ++ pyReprFields fs ++ "\x7d"

def pyReprList : List Json → String
  | [] => ""
  | [x] => pyRepr x
  | x :: y :: xs => pyRepr x ++ ", " ++ pyReprList (y :: xs)

def pyReprFields : List (String × Json) → String
  | [] => ""
  | [kv] => "'" ++ kv.1 ++ "': " ++ pyRepr kv.2
  | kv :: l :: ls => "'" ++ kv.1 ++ "': " ++ pyRepr kv.2 ++ ", " ++ pyReprFields (l :: ls)
end

/-- Python `str()` of a JSON-derived value (`f"{uuid}"` in `app.py`). -/
def pyStr : Json → String
  | Json.str s => s
  | v => pyRepr v

/-- Python truthiness (`if not uuid`, `if query:`, ...). -/
def pyTruthy : Json → Bool
  | Json.null => false
  | Json.bool b => b
  | Json.num n => n != 0
  | Json.str s => !s.data.isEmpty
  | Json.arr xs => !xs.isEmpty
  | Json.obj fs => !fs.isEmpty

/-- Does the first character list start with the second? -/
def listStartsWith : List Char → List Char → Bool
  | _, [] => true
  | [], _ :: _ => false
  | c :: cs, d :: ds => c == d && listStartsWith cs ds

/-- Is `needle` a contiguous sublist of `hay`? -/
def listContainsSub (hay needle : List Char) : Bool :=
  if listStartsWith hay needle then true
  else
    match hay with
    | [] => false
    | _ :: cs => listContainsSub cs needle

/-- `s.startswith(t)` on whole strings. -/
def strStartsWith (s t : String) : Bool :=
  listStartsWith s.data t.data

/-- Python `x == "lit"` for a JSON-derived `x` compared against a string
literal: only a `str` of equal contents compares equal. -/
def pyEqStr (v : Json) (s : String) : Bool :=
  match v with
  | Json.str t => t == s
  | _ => false

/-- Python `d.get(key, default)`: raises `AttributeError` unless `d` is a
dict. -/
def pyGetE (d : Json) (k : String) (dflt : Json) : Except Exc Json :=
  match d with
  | Json.obj fs => Except.ok ((jsonLookup fs k).getD dflt)
  | _ => Except.error Exc.attrErr

/-- Python `d[key]` with a string key: `KeyError` for a dict missing the key,
`TypeError` for every non-dict (list/str indices must be integers, `NoneType`
is not subscriptable, ...). -/
def pySubscript (d : Json) (k : String) : Except Exc Json :=
  match d with
  | Json.obj fs =>
      match jsonLookup fs k with
      | some v => Except.ok v
      | none => Except.error Exc.keyErr
  | _ => Except.error Exc.typeErr

/-- Python `"lit" in d`: key test for dicts, element test for lists,
substring test for strings, `TypeError` otherwise. -/
def pyContains (d : Json) (k : String) : Except Exc Bool :=
  match d with
  | Json.obj fs => Except.ok (jsonLookup fs k).isSome
  | Json.arr xs => Except.ok (xs.any (fun e => pyEqStr e k))
  | Json.str s => Except.ok (listContainsSub s.data k.data)
  | _ => Except.error Exc.typeErr

/-- Python `len`: length for lists, strings and dicts, `TypeError`
otherwise. -/
def pyLen : Json → Except Exc Nat
  | Json.arr xs => Except.ok xs.length
  | Json.str s => Except.ok s.data.length
  | Json.obj fs => Except.ok fs.length
  | _ => Except.error Exc.typeErr

/-- Python iteration `for m in x`: elements of a list, characters of a
string, keys of a dict; `TypeError` otherwise. -/
def pyIter : Json → Except Exc (List Json)
  | Json.arr xs => Except.ok xs
  | Json.str s => Except.ok (s.data.map (fun c => Json.str (String.singleton c)))
  | Json.obj fs => Except.ok (fs.map (fun kv => Json.str kv.1))
  | _ => Except.error Exc.typeErr

/-- Python `reversed(x)` (then iterated): reversed list elements, reversed
characters, reversed dict keys; `TypeError` otherwise. -/
def pyReversed : Json → Except Exc (List Json)
  | Json.arr xs => Except.ok xs.reverse
  | Json.str s => Except.ok ((s.data.map (fun c => Json.str (String.singleton c))).reverse)
  | Json.obj fs => Except.ok ((fs.map (fun kv => Json.str kv.1)).reverse)
  | _ => Except.error Exc.typeErr

/-- `next((m['content'] for m in it if m.get('role') == role), None)`:
scan the iterated elements in order; on the first element whose `role`
equals `role`, return its `content` (raising `KeyError` if absent); raise
`AttributeError` on a non-dict element reached by the scan; default to
`None` when no element matches. -/
def nextContent (role : String) : List Json → Except Exc Json
  | [] => Except.ok Json.null
  | m :: rest =>
      match pyGetE m "role" Json.null with
      | Except.error e => Except.error e
      | Except.ok r =>
          if pyEqStr r role then pySubscript m "content"
          else nextContent role rest

/-- The four summary fields derived by `extract_chat_metadata`
(`None` is `Json.null`). -/
structure Metadata where
  model_name : Json
  conversation_length : Nat
  first_user_message : Json
  last_assistant_message : Json
deriving Repr

/-- The all-defaults fallback returned by the `except` branch of
`extract_chat_metadata`. -/
def defaultMetadata : Metadata :=
  { model_name := Json.str "unknown"
    conversation_length := 0
    first_user_message := Json.null
    last_assistant_message := Json.null }

/-- The `try` body of `extract_chat_metadata` (app.py lines 61–69), with the
dict literal's four value expressions evaluated left to right and
`data.get('messages', [])` re-evaluated per field exactly as in the source. -/
def tryExtract (data : Json) : Except Exc Metadata :=
  match pyGetE data "model" (Json.str "unknown") with
  | Except.error e => Except.error e
  | Except.ok model =>
    match pyGetE data "messages" (Json.arr []) with
    | Except.error e => Except.error e
    | Except.ok msgs1 =>
      match pyLen msgs1 with
      | Except.error e => Except.error e
      | Except.ok count =>
        match pyGetE data "messages" (Json.arr []) with
        | Except.error e => Except.error e
        | Except.ok msgs2 =>
          match pyIter msgs2 with
          | Except.error e => Except.error e
          | Except.ok it =>
            match nextContent "user" it with
            | Except.error e => Except.error e
            | Except.ok firstUser =>
              match pyGetE data "messages" (Json.arr []) with
              | Except.error e => Except.error e
              | Except.ok msgs3 =>
                match pyReversed msgs3 with
                | Except.error e => Except.error e
                | Except.ok rit =>
                  match nextContent "assistant" rit with
                  | Except.error e => Except.error e
                  | Except.ok lastAssistant =>
                      Except.ok
                        { model_name := model
                          conversation_length := count
                          first_user_message := firstUser
                          last_assistant_message := lastAssistant }

/-- `extract_chat_metadata` (app.py lines 60–78): the `try` body, with every
exception caught and replaced by the all-defaults dict. -/
def extract_chat_metadata (data : Json) : Metadata :=
  match tryExtract data with
  | Except.ok m => m
  | Except.error _ => defaultMetadata

example :
    extract_chat_metadata
      (Json.obj [("model", Json.str "gpt-4"),
                 ("messages", Json.arr
                   [Json.obj [("role", Json.str "user"), ("content", Json.str "hi")],
                    Json.obj [("role", Json.str "assistant"), ("content", Json.str "hello")]])])
      = { model_name := Json.str "gpt-4"
          conversation_length := 2
          first_user_message := Json.str "hi"
          last_assistant_message := Json.str "hello" } := rfl

example : extract_chat_metadata Json.null = defaultMetadata := rfl

example :
    extract_chat_metadata
      (Json.obj [("model", Json.str "gpt-4"),
                 ("messages", Json.arr [Json.obj [("role", Json.str "user")]])])
      = defaultMetadata := rfl

/-! ## The ingestion and query service (`app.py`) -/

/-- One row of the DuckDB table `chat_data` (app.py lines 42–53).
`uuid` is the VARCHAR primary key (parameters are coerced to the column
type, modelled by `pyStr`); nullable VARCHAR/TEXT columns are `Option
String`; `chat_data` holds the JSON document (`json.dumps` on write and
`json.loads` on read are mutually inverse, so the column is modelled by the
parsed value itself). -/
structure Row where
  uuid : String
  collected_at : Nat
  json_path : String
  chat_data : Json
  model_name : Option String
  conversation_length : Nat
  first_user_message : Option String
  last_assistant_message : Option String
deriving Repr

/-- The server-side state `POST /collect` writes to: the `raw_json`
directory (path ↦ written document) and the `chat_data` table. -/
structure ServerState where
  fs : List (String × Json)
  db : List Row
deriving Repr

/-- `open(path, 'w')` + `json.dump`: overwrite the file at `path` if it
exists, create it otherwise. -/
def setFile : List (String × Json) → String → Json → List (String × Json)
  | [], p, d => [(p, d)]
  | (q, old) :: rest, p, d =>
      if q == p then (p, d) :: rest else (q, old) :: setFile rest p d

/-- `b.startswith('/')` as used by `os.path.join`. -/
def startsWithSlash (s : String) : Bool :=
  match s.data with
  | [] => false
  | c :: _ => c == '/'

/-- POSIX `os.path.join(a, b)` for the two-argument form used in `app.py`
(`a` is the constant `"raw_json"`, which is non-empty and does not end in a
slash): an absolute second component discards the first. -/
def osPathJoin (a b : String) : String :=
  if startsWithSlash b then b else a ++ "/" ++ b

/-- Binding a Python value into a nullable VARCHAR/TEXT column:
`None` becomes SQL NULL, anything else is stored as text. -/
def sqlTextVal (v : Json) : Option String :=
  match v with
  | Json.null => none
  | v => some (pyStr v)

/-- The envelope unwrapping of `/collect` (app.py lines 95–99):
`if 'data' in data and isinstance(data['data'], list) and len(data['data']) > 0:
data = data['data'][0]['data'] else: raise HTTPException(400, ...)`,
with Python's left-to-right short-circuit evaluation. -/
def unwrapEnvelope (d : Json) : Except Exc Json := do
  let c ← pyContains d "data"
  if c then
    let v ← pySubscript d "data"
    match v with
    | Json.arr (x :: _) => pySubscript x "data"
    | _ => Except.error (Exc.httpExc 400 "Invalid data structure")
  else Except.error (Exc.httpExc 400 "Invalid data structure")

/-- The standard request envelope `{ data: [ { data: <doc> } ] }`. -/
def mkEnvelope (doc : Json) : Json :=
  Json.obj [("data", Json.arr [Json.obj [("data", doc)]])]

/-- The response body of a successful `/collect`. -/
structure CollectResp where
  status : String
  message : String
  json_path : String
deriving Repr, DecidableEq

/-- Build the row inserted by `/collect` (app.py lines 126–133). -/
def mkRow (uuidStr : String) (now : Nat) (json_path : String) (data : Json)
    (md : Metadata) : Row :=
  { uuid := uuidStr
    collected_at := now
    json_path := json_path
    chat_data := data
    model_name := sqlTextVal md.model_name
    conversation_length := md.conversation_length
    first_user_message := sqlTextVal md.first_user_message
    last_assistant_message := sqlTextVal md.last_assistant_message }

/-- app.py lines 102–139, after the envelope has been unwrapped: extract
`uuid` (400 if falsy), write the canonical file at
`os.path.join("raw_json", f"{uuid}.json")` (overwriting), extract metadata,
then `INSERT` the row — a plain `INSERT`, so a duplicate primary key raises
DuckDB's constraint exception, after the file has already been written. -/
def processDocument (st : ServerState) (data : Json) (now : Nat) :
    ServerState × Except Exc CollectResp :=
  match pyGetE data "uuid" Json.null with
  | Except.error e => (st, Except.error e)
  | Except.ok u =>
    if pyTruthy u then
      let uuidStr := pyStr u
      let json_path := osPathJoin "raw_json" (uuidStr ++ ".json")
      let fs1 := setFile st.fs json_path data
      let md := extract_chat_metadata data
      if st.db.any (fun r => r.uuid == uuidStr) then
        ({ fs := fs1, db := st.db }, Except.error Exc.constraintErr)
      else
        ({ fs := fs1, db := st.db ++ [mkRow uuidStr now json_path data md] },
         Except.ok
           { status := "success"
             message := "Data saved with UUID " ++ uuidStr
             json_path := json_path })
    else (st, Except.error (Exc.httpExc 400 "UUID is required"))

/-- The `try` body of `collect_chat_data` (app.py lines 83–139).  The
request body is given as its parse result: `none` models a body on which
`json.loads` raises `JSONDecodeError`.  State changes made before an
exception (the file write) persist. -/
def collectBody (st : ServerState) (parsed : Option Json) (now : Nat) :
    ServerState × Except Exc CollectResp :=
  match parsed with
  | none => (st, Except.error Exc.jsonDecodeError)
  | some d =>
    match unwrapEnvelope d with
    | Except.error e => (st, Except.error e)
    | Except.ok data => processDocument st data now

/-- `POST /collect` (app.py lines 80–155): the `try` body followed by the
two `except` clauses.  `except json.JSONDecodeError` maps to a 400 response;
`except Exception` maps everything else — including the `HTTPException(400)`
raised inside the `try` body itself — to a 500 response. -/
def collect (st : ServerState) (parsed : Option Json) (now : Nat) :
    ServerState × Nat × Option CollectResp :=
  match collectBody st parsed now with
  | (st1, Except.ok resp) => (st1, 200, some resp)
  | (st1, Except.error Exc.jsonDecodeError) => (st1, 400, none)
  | (st1, Except.error _) => (st1, 500, none)

/-- The `try` body of `get_chat` (app.py lines 222–235): `SELECT chat_data
FROM chat_data WHERE uuid = ?` and `HTTPException(404)` when no row
matches. -/
def getChatBody (st : ServerState) (uuid : String) : Except Exc Json :=
  match st.db.find? (fun r => r.uuid == uuid) with
  | none => Except.error (Exc.httpExc 404 "Chat not found")
  | some r => Except.ok r.chat_data

/-- `GET /chat/{uuid}` (app.py lines 219–240): the `try` body followed by
`except Exception`, which maps every exception — including the handler's own
`HTTPException(404)` — to a 500 response. -/
def getChat (st : ServerState) (uuid : String) : Nat × Option Json :=
  match getChatBody st uuid with
  | Except.ok j => (200, some j)
  | Except.error _ => (500, none)

/-! ## `GET /search` (app.py lines 157–217) -/

/-- Minimal JSON-text escaping for the `::VARCHAR` rendering of an extracted
JSON value (only the quote and backslash characters; no theorem depends on
the rendering). -/
def escapeJsonChar (c : Char) : String :=
  if c == '"' then "\\\"" else if c == '\\' then "\\\\" else String.singleton c

def escapeJsonString (s : String) : String :=
  String.join (s.data.map escapeJsonChar)

mutual
/-- Compact JSON text of a value, as a SQL engine renders a JSON value cast
to VARCHAR. -/
def renderJson : Json → String
  | Json.null => "null"
  | Json.bool true => "true"
  | Json.bool false => "false"
  | Json.num n => toString n
  | Json.str s => "\"" ++ escapeJsonString s ++ "\""
  | Json.arr xs => "[" ++ renderJsonList xs ++ "]"
  | Json.obj fs => "\x7b" ++ renderJsonFields fs ++ "\x7d"

def renderJsonList : List Json → String
  | [] => ""
  | [x] => renderJson x
  | x :: y :: xs => renderJson x ++ "," ++ renderJsonList (y :: xs)

def renderJsonFields : List (String × Json) → String
  | [] => ""
  | [kv] => "\"" ++ escapeJsonString kv.1 ++ "\":" ++ renderJson kv.2
  | kv :: l :: ls =>
      "\"" ++ escapeJsonString kv.1 ++ "\":" ++ renderJson kv.2 ++ "," ++
        renderJsonFields (l :: ls)
end

/-- SQL `s ILIKE '%q%'`: case-insensitive substring containment (the `%`/`_`
pattern metacharacters inside `q` itself are not modelled; no claim uses
them). -/
def ilike (s : String) (q : String) : Bool :=
  listContainsSub (s.data.map Char.toLower) (q.data.map Char.toLower)

/-- `ILIKE` over a nullable column: a NULL operand yields SQL NULL, which the
WHERE clause treats as not matching. -/
def ilikeOpt : Option String → String → Bool
  | none, _ => false
  | some s, q => ilike s q

/-- `json_extract(chat_data, '$.messages[*].content')::VARCHAR`: the JSON
array of the `content` fields of the elements of `messages` (entries without
`content` are skipped by the wildcard path), rendered as text; SQL NULL when
`messages` is absent or not an array. -/
def extractContentsVarchar (j : Json) : Option String :=
  match j with
  | Json.obj fs =>
      match jsonLookup fs "messages" with
      | some (Json.arr xs) =>
          some (renderJson (Json.arr (xs.filterMap (fun m =>
            match m with
            | Json.obj mfs => jsonLookup mfs "content"
            | _ => none))))
      | _ => none
  | _ => none

/-- The `query` condition of the WHERE clause (app.py lines 172–179). -/
def queryCond (q : String) (r : Row) : Bool :=
  ilikeOpt r.first_user_message q || ilikeOpt r.last_assistant_message q ||
    ilikeOpt (extractContentsVarchar r.chat_data) q

/-- The `model` condition `model_name = ?` (NULL never compares equal). -/
def modelCond (m : String) (r : Row) : Bool :=
  r.model_name == some m

/-- The `min_length` condition `conversation_length >= ?`. -/
def minLenCond (n : Int) (r : Row) : Bool :=
  decide ((r.conversation_length : Int) ≥ n)

/-- Python truthiness of an optional `str` query parameter
(`None` and `""` are falsy). -/
def strTruthyOpt : Option String → Bool
  | none => false
  | some s => !s.data.isEmpty

/-- Python truthiness of an optional `int` query parameter
(`None` and `0` are falsy). -/
def intTruthyOpt : Option Int → Bool
  | none => false
  | some n => n != 0

/-- Insert a row into a list sorted by `collected_at` descending, keeping
earlier rows first among ties. -/
def insertDesc (r : Row) : List Row → List Row
  | [] => [r]
  | x :: xs =>
      if x.collected_at ≥ r.collected_at then x :: insertDesc r xs
      else r :: x :: xs

/-- `ORDER BY collected_at DESC` modelled as an insertion sort. -/
def sortByCollectedDesc : List Row → List Row
  | [] => []
  | x :: xs => insertDesc x (sortByCollectedDesc xs)

/-- The record summary returned by `/search` (app.py lines 194–205): the six
selected columns, the document body excluded. -/
structure Summary where
  uuid : String
  collected_at : Nat
  model_name : Option String
  conversation_length : Nat
  first_user_message : Option String
  last_assistant_message : Option String
deriving Repr, DecidableEq

def summaryOfRow (r : Row) : Summary :=
  { uuid := r.uuid
    collected_at := r.collected_at
    model_name := r.model_name
    conversation_length := r.conversation_length
    first_user_message := r.first_user_message
    last_assistant_message := r.last_assistant_message }

/-- `GET /search` (app.py lines 157–205): build the condition list — each
condition added only when its parameter is truthy, so `None`, `""` and `0`
all skip their condition — AND them (`1=1` when empty), order by
`collected_at` descending, cap at `limit`, and project each row to its
summary columns. -/
def searchChats (db : List Row) (query : Option String) (model : Option String)
    (min_length : Option Int) (limit : Nat) : List Summary :=
  let conds : List (Row → Bool) :=
    (if strTruthyOpt query then [queryCond (query.getD "")] else []) ++
    (if strTruthyOpt model then [modelCond (model.getD "")] else []) ++
    (if intTruthyOpt min_length then [minLenCond (min_length.getD 0)] else [])
  let rows := db.filter (fun r => conds.all (fun c => c r))
  ((sortByCollectedDesc rows).take limit).map summaryOfRow

/-! ## The sync watcher (`src/indexer.py`)

`IndexingHandler._handle_file` and the startup pass of `run_auto_indexer`.
The MD5 hash, the `json.loads` parse of file bytes and the Meilisearch
delete/add calls are external collaborators and appear as function
parameters (`md5`, `loads`, `idxRes`); every theorem below is universally
quantified over them. -/

/-- The watched directory: path ↦ byte content; `none` models a present but
unreadable file (`open`/`read` raises `OSError`). -/
def WatchFs : Type := List (String × Option String)

/-- `open(file_path, 'rb').read()` / `open(file_path, 'r').read()`:
`OSError` on a missing or unreadable path. -/
def readFileBytes (fs : WatchFs) (path : String) : Except Exc String :=
  match fs.find? (fun kv => kv.1 == path) with
  | some (_, some content) => Except.ok content
  | some (_, none) => Except.error Exc.ioErr
  | none => Except.error Exc.ioErr

/-- `path.endswith(t)`. -/
def strEndsWith (s t : String) : Bool :=
  listStartsWith s.data.reverse t.data.reverse

/-- The in-memory `self._last_hash` map: path ↦ last recorded digest. -/
def lookupHash (st : List (String × String)) (p : String) : Option String :=
  (st.find? (fun kv => kv.1 == p)).map (fun kv => kv.2)

/-- `self._last_hash[file_path] = current_hash` (dict assignment). -/
def setHash : List (String × String) → String → String → List (String × String)
  | [], p, h => [(p, h)]
  | (q, old) :: rest, p, h =>
      if q == p then (p, h) :: rest else (q, old) :: setHash rest p h

/-- `_clean_document` (indexer.py lines 58–61): drop the keys `settings`,
`current_leaf_message_uuid`, `is_starred`; `doc.items()` raises
`AttributeError` on a non-dict. -/
def cleanDocument (d : Json) : Except Exc Json :=
  match d with
  | Json.obj fs =>
      Except.ok (Json.obj (fs.filter (fun kv =>
        !(["settings", "current_leaf_message_uuid", "is_starred"].contains kv.1))))
  | _ => Except.error Exc.attrErr

/-- indexer.py lines 38–41: a dict becomes a one-element document list;
anything else is iterated (list elements, string characters, ...; a
non-iterable raises `TypeError`) and each element cleaned. -/
def prepareDocuments (data : Json) : Except Exc (List Json) :=
  match data with
  | Json.obj fs => (cleanDocument (Json.obj fs)).map (fun d => [d])
  | d => do
      let items ← pyIter d
      items.mapM cleanDocument

/-- `[doc['uuid'] for doc in documents if 'uuid' in doc]` — the documents
reaching this point are all dicts (cleaning already raised otherwise). -/
def extractUuids (docs : List Json) : List Json :=
  docs.filterMap (fun d =>
    match d with
    | Json.obj fs => jsonLookup fs "uuid"
    | _ => none)

/-- The two Meilisearch calls a file's processing can attempt, in order. -/
inductive IndexOp where
  | deleteDocuments (uuids : List Json)
  | addDocuments (docs : List Json)
deriving Repr

/-- What one `_handle_file` call did: `skipped` (non-`.json` path or
unchanged hash — no work, nothing printed but the early `return`),
`updated n` (success message for `n` documents, hash recorded), `logged e`
(the `except` clause caught and printed `e`, swallowing it), `raised e`
(`e` escaped `_handle_file` — only possible before the `try` block). -/
inductive HandleOutcome where
  | skipped
  | updated (nDocs : Nat)
  | logged (e : Exc)
  | raised (e : Exc)
deriving Repr, DecidableEq

/-- `IndexingHandler._handle_file` (indexer.py lines 23–56).  Returns the new
`_last_hash` state, the list of Meilisearch operations attempted (in order),
and the outcome.  `_get_file_hash` runs before the `try` block, so its
`OSError` propagates (`raised`); everything from the second `open` onward is
inside the `try` and is swallowed (`logged`). -/
def handleFile (md5 : String → String) (loads : String → Except Exc Json)
    (idxRes : IndexOp → Except Exc Unit) (fs : WatchFs)
    (st : List (String × String)) (path : String) :
    List (String × String) × List IndexOp × HandleOutcome :=
  if !(strEndsWith path ".json") then (st, [], HandleOutcome.skipped)
  else
    match readFileBytes fs path with
    | Except.error e => (st, [], HandleOutcome.raised e)
    | Except.ok content =>
      let currentHash := md5 content
      if lookupHash st path == some currentHash then (st, [], HandleOutcome.skipped)
      else
        match readFileBytes fs path with
        | Except.error e => (st, [], HandleOutcome.logged e)
        | Except.ok content2 =>
          match loads content2 with
          | Except.error e => (st, [], HandleOutcome.logged e)
          | Except.ok data =>
            match prepareDocuments data with
            | Except.error e => (st, [], HandleOutcome.logged e)
            | Except.ok documents =>
              let uuids := extractUuids documents
              if uuids.isEmpty then
                match idxRes (IndexOp.addDocuments documents) with
                | Except.error e =>
                    (st, [IndexOp.addDocuments documents], HandleOutcome.logged e)
                | Except.ok _ =>
                    (setHash st path currentHash,
                     [IndexOp.addDocuments documents],
                     HandleOutcome.updated documents.length)
              else
                match idxRes (IndexOp.deleteDocuments uuids) with
                | Except.error e =>
                    (st, [IndexOp.deleteDocuments uuids], HandleOutcome.logged e)
                | Except.ok _ =>
                  match idxRes (IndexOp.addDocuments documents) with
                  | Except.error e =>
                      (st, [IndexOp.deleteDocuments uuids,
                            IndexOp.addDocuments documents],
                       HandleOutcome.logged e)
                  | Except.ok _ =>
                      (setHash st path currentHash,
                       [IndexOp.deleteDocuments uuids,
                        IndexOp.addDocuments documents],
                       HandleOutcome.updated documents.length)

/-- The startup pass of `run_auto_indexer` (indexer.py lines 117–119):
`for json_file in glob.glob(...): event_handler._handle_file(json_file)` —
a bare loop with no exception handling, so an exception escaping
`_handle_file` aborts the pass before the remaining files.  Returns the
final handler state, the per-file outcomes of the files actually processed,
and whether the pass was aborted. -/
def runStartup (md5 : String → String) (loads : String → Except Exc Json)
    (idxRes : IndexOp → Except Exc Unit) (fs : WatchFs) :
    List String → List (String × String) →
    List (String × String) × List (String × HandleOutcome) × Bool
  | [], st => (st, [], false)
  | p :: rest, st =>
    match handleFile md5 loads idxRes fs st p with
    | (st1, _, HandleOutcome.raised e) => (st1, [(p, HandleOutcome.raised e)], true)
    | (st1, _, out) =>
      let next := runStartup md5 loads idxRes fs rest st1
      (next.1, (p, out) :: next.2.1, next.2.2)

/-! ## Claims -/

def emptyState : ServerState := { fs := [], db := [] }

/-- C1: the claim is that the request boundary translates error kinds to
their documented statuses — 400 for invalid JSON / wrong envelope / missing
id, 404 for an unknown id on `GET /chat/{id}`, 500 only for storage or
unexpected server-side failures.  The code contradicts its own
`raise HTTPException(status_code=400, ...)` / `(404, ...)` statements: those
exceptions are caught by the blanket `except Exception` clause of the same
handler and re-raised as `HTTPException(500, ...)`.  Only the invalid-JSON
400 survives, because `except json.JSONDecodeError` is listed first.  This
theorem evaluates the embedded handlers at the failing inputs: a
syntactically invalid body gives 400 as documented, but a wrong envelope
(`{}`), a missing id, and an unknown chat id all give 500. -/
theorem c1_error_statuses_code_bug :
    (collect emptyState none 0).2.1 = 400 ∧
    (collect emptyState (some (Json.obj [])) 0).2.1 = 500 ∧
    (collect emptyState (some (mkEnvelope (Json.obj [("model", Json.str "m")]))) 0).2.1
      = 500 ∧
    (getChat emptyState "missing").1 = 500 :=
  ⟨rfl, rfl, rfl, rfl⟩

/-- C4: for every input whatsoever, whenever the extraction body fails the
Metadata Extractor returns exactly the all-defaults result — and never
raises (in the embedding `extract_chat_metadata` is a total function: every
dynamic error of the body is caught by its `except` clause). -/
theorem c4_extractor_fallback_defaults (d : Json)
    (h : (tryExtract d).isOk = false) :
    extract_chat_metadata d = defaultMetadata := by
  unfold extract_chat_metadata
  cases he : tryExtract d with
  | ok m => rw [he] at h; simp [Except.isOk, Except.toBool] at h
  | error e => rfl

theorem c4_extractor_fallback_defaults_witness :
    (tryExtract (Json.arr [Json.num 3])).isOk = false ∧
    extract_chat_metadata (Json.arr [Json.num 3]) = defaultMetadata :=
  ⟨rfl, c4_extractor_fallback_defaults (Json.arr [Json.num 3]) rfl⟩

/-- C7: watcher idempotence on content — if the recorded hash for a path
equals the hash of its current (byte-identical) content, `_handle_file`
performs zero Meilisearch delete/add operations and leaves the state
unchanged, for every hash function, parser and index behaviour. -/
theorem c7_duplicate_content_no_ops (md5 : String → String)
    (loads : String → Except Exc Json) (idxRes : IndexOp → Except Exc Unit)
    (fs : WatchFs) (st : List (String × String)) (path content : String)
    (hread : readFileBytes fs path = Except.ok content)
    (hhash : lookupHash st path = some (md5 content)) :
    handleFile md5 loads idxRes fs st path = (st, [], HandleOutcome.skipped) := by
  unfold handleFile
  cases hj : strEndsWith path ".json" with
  | false => simp [hj]
  | true => simp [hj, hread, hhash]

theorem c7_duplicate_content_no_ops_witness :
    readFileBytes [("a.json", some "x")] "a.json" = Except.ok "x" ∧
    lookupHash [("a.json", "x")] "a.json" = some ((fun s => s) "x") ∧
    handleFile (fun s => s) (fun _ => Except.ok Json.null) (fun _ => Except.ok ())
        [("a.json", some "x")] [("a.json", "x")] "a.json"
      = ([("a.json", "x")], [], HandleOutcome.skipped) :=
  ⟨rfl, rfl,
   c7_duplicate_content_no_ops (fun s => s) (fun _ => Except.ok Json.null)
     (fun _ => Except.ok ()) [("a.json", some "x")] [("a.json", "x")]
     "a.json" "x" rfl rfl⟩

/-- If `_handle_file` lets an exception escape, that exception came from the
`_get_file_hash` read performed before the `try` block. -/
theorem handleFile_raised_from_hash_read (md5 : String → String)
    (loads : String → Except Exc Json) (idxRes : IndexOp → Except Exc Unit)
    (fs : WatchFs) (st : List (String × String)) (path : String) (e : Exc)
    (h : (handleFile md5 loads idxRes fs st path).2.2 = HandleOutcome.raised e) :
    readFileBytes fs path = Except.error e := by
  unfold handleFile at h
  cases hj : strEndsWith path ".json" with
  | false => rw [hj] at h; simp at h
  | true =>
    rw [hj] at h
    simp only [Bool.not_true, Bool.false_eq_true, if_false] at h
    cases hr : readFileBytes fs path with
    | error e1 =>
      rw [hr] at h
      have he1 : e1 = e := by simpa using h
      rw [← he1]
    | ok content =>
      rw [hr] at h
      simp only at h
      cases hh : lookupHash st path == some (md5 content) with
      | true => simp only [hh] at h; simp at h
      | false =>
        simp only [hh] at h
        cases hl : loads content with
        | error e2 => rw [hl] at h; simp at h
        | ok data =>
          rw [hl] at h
          simp only at h
          cases hp : prepareDocuments data with
          | error e3 => rw [hp] at h; simp at h
          | ok documents =>
            rw [hp] at h
            simp only at h
            cases hu : (extractUuids documents).isEmpty with
            | true =>
              simp only [hu] at h
              cases ha : idxRes (IndexOp.addDocuments documents) with
              | error e4 => rw [ha] at h; simp at h
              | ok u => rw [ha] at h; simp at h
            | false =>
              simp only [hu] at h
              cases hd : idxRes (IndexOp.deleteDocuments (extractUuids documents)) with
              | error e4 => rw [hd] at h; simp at h
              | ok u =>
                rw [hd] at h
                simp only at h
                cases ha : idxRes (IndexOp.addDocuments documents) with
                | error e5 => rw [ha] at h; simp at h
                | ok u2 => rw [ha] at h; simp at h

def fsUnreadable : WatchFs := [("a.json", none), ("b.json", some "x")]

/-- C3 counterexample: the claim says every error while processing a single
file — explicitly including an unreadable file — is caught inside the
per-file handler and never stops the startup pass.  But
`_get_file_hash` runs before the `try` block, so a read failure propagates
out of `_handle_file`, and the startup loop of `run_auto_indexer` (which has
no exception handling) aborts before the remaining files: with `a.json`
unreadable and `b.json` fine, the pass dies on `a.json` and never processes
`b.json`. -/
theorem c3_unreadable_file_escapes :
    (handleFile (fun s => s) (fun _ => Except.ok (Json.obj []))
        (fun _ => Except.ok ()) fsUnreadable [] "a.json").2.2
      = HandleOutcome.raised Exc.ioErr ∧
    runStartup (fun s => s) (fun _ => Except.ok (Json.obj []))
        (fun _ => Except.ok ()) fsUnreadable ["a.json", "b.json"] []
      = ([], [("a.json", HandleOutcome.raised Exc.ioErr)], true) :=
  ⟨rfl, rfl⟩

/-- C3 amended: every error raised from the `try` block of the per-file
handler — file read for parsing, JSON parse, index delete/add — is caught
and logged inside `_handle_file` and never propagates; but an error in the
hash computation performed before the `try` block (an unreadable file) does
propagate and aborts the startup pass.  Formally: whenever the file is
readable, no exception escapes `_handle_file`, whatever the parser and the
index do. -/
theorem c3_amended_try_block_contained (md5 : String → String)
    (loads : String → Except Exc Json) (idxRes : IndexOp → Except Exc Unit)
    (fs : WatchFs) (st : List (String × String)) (path content : String)
    (hread : readFileBytes fs path = Except.ok content) :
    ∀ e, (handleFile md5 loads idxRes fs st path).2.2 ≠ HandleOutcome.raised e := by
  intro e h
  have hr := handleFile_raised_from_hash_read md5 loads idxRes fs st path e h
  rw [hread] at hr
  simp at hr

theorem c3_amended_try_block_contained_witness :
    readFileBytes fsUnreadable "b.json" = Except.ok "x" ∧
    (handleFile (fun s => s) (fun _ => Except.error Exc.typeErr)
        (fun _ => Except.error Exc.ioErr) fsUnreadable [] "b.json").2.2
      ≠ HandleOutcome.raised Exc.typeErr :=
  ⟨rfl,
   c3_amended_try_block_contained (fun s => s) (fun _ => Except.error Exc.typeErr)
     (fun _ => Except.error Exc.ioErr) fsUnreadable [] "b.json" "x" rfl
     Exc.typeErr⟩

/-- `self._last_hash[path] = h` makes `self._last_hash.get(path)` return
`h`. -/
theorem lookupHash_setHash (st : List (String × String)) (p h : String) :
    lookupHash (setHash st p h) p = some h := by
  induction st with
  | nil => simp [setHash, lookupHash]
  | cons kv rest ih =>
    obtain ⟨q, old⟩ := kv
    by_cases hq : (q == p) = true
    · simp [setHash, hq, lookupHash]
    · simp only [setHash, hq]
      rw [if_neg (by simp [hq])]
      simpa [lookupHash, List.find?_cons, hq] using ih

/-- C10: the watcher records a path's hash atomically with success — the
`_last_hash` entry is written only after the delete-then-add completed
without error; on any swallowed failure (read inside the try, parse, index
delete/add) the state is exactly unchanged, so re-running the handler on the
same content repeats the same index operations instead of skipping. -/
theorem c10_hash_update_atomic_with_success (md5 : String → String)
    (loads : String → Except Exc Json) (idxRes : IndexOp → Except Exc Unit)
    (fs : WatchFs) (st st1 : List (String × String)) (path : String)
    (ops : List IndexOp) (out : HandleOutcome)
    (h : handleFile md5 loads idxRes fs st path = (st1, ops, out)) :
    (∀ e, out = HandleOutcome.logged e →
        st1 = st ∧ handleFile md5 loads idxRes fs st1 path = (st1, ops, out)) ∧
    (∀ n, out = HandleOutcome.updated n →
        (∃ content, readFileBytes fs path = Except.ok content ∧
           lookupHash st1 path = some (md5 content)) ∧
        (∀ op, op ∈ ops → idxRes op = Except.ok ())) := by
  have hcopy := h
  unfold handleFile at h
  cases hj : strEndsWith path ".json" with
  | false =>
    rw [hj] at h
    simp only [Bool.not_false, if_true] at h
    simp only [Prod.mk.injEq] at h
    obtain ⟨rfl, rfl, rfl⟩ := h
    exact ⟨(fun e he => nomatch he), (fun n hn => nomatch hn)⟩
  | true =>
    rw [hj] at h
    simp only [Bool.not_true, Bool.false_eq_true, if_false] at h
    cases hr : readFileBytes fs path with
    | error e1 =>
      rw [hr] at h
      simp only at h
      simp only [Prod.mk.injEq] at h
      obtain ⟨rfl, rfl, rfl⟩ := h
      exact ⟨(fun e he => nomatch he), (fun n hn => nomatch hn)⟩
    | ok content =>
      rw [hr] at h
      simp only at h
      cases hh : lookupHash st path == some (md5 content) with
      | true =>
        simp only [hh, if_true] at h
        simp only [Prod.mk.injEq] at h
        obtain ⟨rfl, rfl, rfl⟩ := h
        exact ⟨(fun e he => nomatch he), (fun n hn => nomatch hn)⟩
      | false =>
        simp only [hh, Bool.false_eq_true, if_false] at h
        cases hl : loads content with
        | error e2 =>
          rw [hl] at h
          simp only at h
          simp only [Prod.mk.injEq] at h
          obtain ⟨rfl, rfl, rfl⟩ := h
          exact ⟨(fun e he => ⟨rfl, hcopy⟩), (fun n hn => nomatch hn)⟩
        | ok data =>
          rw [hl] at h
          simp only at h
          cases hp : prepareDocuments data with
          | error e3 =>
            rw [hp] at h
            simp only at h
            simp only [Prod.mk.injEq] at h
            obtain ⟨rfl, rfl, rfl⟩ := h
            exact ⟨(fun e he => ⟨rfl, hcopy⟩), (fun n hn => nomatch hn)⟩
          | ok documents =>
            rw [hp] at h
            simp only at h
            cases hu : (extractUuids documents).isEmpty with
            | true =>
              simp only [hu, if_true] at h
              cases ha : idxRes (IndexOp.addDocuments documents) with
              | error e4 =>
                rw [ha] at h
                simp only at h
                simp only [Prod.mk.injEq] at h
                obtain ⟨rfl, rfl, rfl⟩ := h
                exact ⟨(fun e he => ⟨rfl, hcopy⟩), (fun n hn => nomatch hn)⟩
              | ok uu =>
                rw [ha] at h
                simp only at h
                simp only [Prod.mk.injEq] at h
                obtain ⟨rfl, rfl, rfl⟩ := h
                refine ⟨(fun e he => nomatch he), fun n hn =>
                  ⟨⟨content, rfl, lookupHash_setHash st path (md5 content)⟩, ?_⟩⟩
                intro op hop
                simp only [List.mem_singleton] at hop
                subst hop
                exact ha
            | false =>
              simp only [hu, Bool.false_eq_true, if_false] at h
              cases hd : idxRes (IndexOp.deleteDocuments (extractUuids documents)) with
              | error e4 =>
                rw [hd] at h
                simp only at h
                simp only [Prod.mk.injEq] at h
                obtain ⟨rfl, rfl, rfl⟩ := h
                exact ⟨(fun e he => ⟨rfl, hcopy⟩), (fun n hn => nomatch hn)⟩
              | ok uu =>
                rw [hd] at h
                simp only at h
                cases ha : idxRes (IndexOp.addDocuments documents) with
                | error e5 =>
                  rw [ha] at h
                  simp only at h
                  simp only [Prod.mk.injEq] at h
                  obtain ⟨rfl, rfl, rfl⟩ := h
                  exact ⟨(fun e he => ⟨rfl, hcopy⟩), (fun n hn => nomatch hn)⟩
                | ok uu2 =>
                  rw [ha] at h
                  simp only at h
                  simp only [Prod.mk.injEq] at h
                  obtain ⟨rfl, rfl, rfl⟩ := h
                  refine ⟨(fun e he => nomatch he), fun n hn =>
                    ⟨⟨content, rfl, lookupHash_setHash st path (md5 content)⟩, ?_⟩⟩
                  intro op hop
                  simp only [List.mem_cons, List.mem_singleton] at hop
                  cases hop with
                  | inl h1 => subst h1; exact hd
                  | inr h1 => cases h1 with
                    | inl h2 => subst h2; exact ha
                    | inr h2 => cases h2

theorem c10_hash_update_atomic_with_success_witness :
    ([("c.json", "old")] : List (String × String)) = [("c.json", "old")] ∧
    handleFile (fun s => s) (fun _ => Except.error Exc.typeErr)
        (fun _ => Except.ok ()) [("c.json", some "z")] [("c.json", "old")] "c.json"
      = ([("c.json", "old")], [], HandleOutcome.logged Exc.typeErr) :=
  (c10_hash_update_atomic_with_success (fun s => s)
      (fun _ => Except.error Exc.typeErr) (fun _ => Except.ok ())
      [("c.json", some "z")] [("c.json", "old")] [("c.json", "old")] "c.json"
      [] (HandleOutcome.logged Exc.typeErr) rfl).1 Exc.typeErr rfl

/-- Unwrapping the standard envelope yields the inner document. -/
theorem unwrapEnvelope_mkEnvelope (doc : Json) :
    unwrapEnvelope (mkEnvelope doc) = Except.ok doc := rfl

/-- `find?` over an append whose left part has no match returns the
singleton appended element when it matches. -/
theorem list_find_append_singleton {α : Type} (p : α → Bool) (l : List α) (x : α)
    (hl : l.any p = false) (hx : p x = true) :
    (l ++ [x]).find? p = some x := by
  induction l with
  | nil => simp [List.find?_cons, hx]
  | cons a t ih =>
    simp only [List.any_cons, Bool.or_eq_false_iff] at hl
    obtain ⟨ha, ht⟩ := hl
    simp [List.find?_cons, ha, ih ht]

/-- The run of `/collect` on a well-formed envelope whose document carries a
truthy id that is not yet in the table: file written, row appended,
200 response. -/
theorem collect_fresh_id_success
    (st : ServerState) (dfs : List (String × Json)) (u : Json) (now : Nat)
    (hu : jsonLookup dfs "uuid" = some u)
    (ht : pyTruthy u = true)
    (hfresh : st.db.any (fun r => r.uuid == pyStr u) = false) :
    collect st (some (mkEnvelope (Json.obj dfs))) now =
      ({ fs := setFile st.fs (osPathJoin "raw_json" (pyStr u ++ ".json")) (Json.obj dfs),
         db := st.db ++ [mkRow (pyStr u) now
           (osPathJoin "raw_json" (pyStr u ++ ".json")) (Json.obj dfs)
           (extract_chat_metadata (Json.obj dfs))] },
       200,
       some { status := "success",
              message := "Data saved with UUID " ++ pyStr u,
              json_path := osPathJoin "raw_json" (pyStr u ++ ".json") }) := by
  unfold collect collectBody
  dsimp only
  rw [unwrapEnvelope_mkEnvelope]
  dsimp only
  unfold processDocument
  rw [show pyGetE (Json.obj dfs) "uuid" Json.null = Except.ok u by
        simp [pyGetE, hu]]
  dsimp only
  rw [ht, hfresh]
  simp

/-- C2 amended: re-ingesting an id already present in the table does not
replace the record — the plain `INSERT` hits the primary-key constraint and
the request fails with status 500; the table is unchanged (the record keeps
the first ingest's content) while the canonical file has already been
overwritten with the second body before the failure.  Exactly one record and
one file still exist for the id. -/
theorem c2_amended_duplicate_id_insert_fails
    (st : ServerState) (dfs : List (String × Json)) (u : Json) (now : Nat)
    (hu : jsonLookup dfs "uuid" = some u)
    (ht : pyTruthy u = true)
    (hdup : st.db.any (fun r => r.uuid == pyStr u) = true) :
    collect st (some (mkEnvelope (Json.obj dfs))) now =
      ({ fs := setFile st.fs (osPathJoin "raw_json" (pyStr u ++ ".json")) (Json.obj dfs),
         db := st.db }, 500, none) := by
  unfold collect collectBody
  dsimp only
  rw [unwrapEnvelope_mkEnvelope]
  dsimp only
  unfold processDocument
  rw [show pyGetE (Json.obj dfs) "uuid" Json.null = Except.ok u by
        simp [pyGetE, hu]]
  dsimp only
  rw [ht, hdup]
  simp

theorem c2_amended_duplicate_id_insert_fails_witness :
    jsonLookup [("uuid", Json.str "abc"), ("model", Json.str "m2")] "uuid"
      = some (Json.str "abc") ∧
    pyTruthy (Json.str "abc") = true ∧
    ((collect emptyState
        (some (mkEnvelope (Json.obj [("uuid", Json.str "abc"),
                                     ("model", Json.str "m1")]))) 0).1.db.any
      (fun r => r.uuid == pyStr (Json.str "abc"))) = true ∧
    collect (collect emptyState
        (some (mkEnvelope (Json.obj [("uuid", Json.str "abc"),
                                     ("model", Json.str "m1")]))) 0).1
      (some (mkEnvelope (Json.obj [("uuid", Json.str "abc"),
                                   ("model", Json.str "m2")]))) 1 =
      ({ fs := setFile (collect emptyState
           (some (mkEnvelope (Json.obj [("uuid", Json.str "abc"),
                                        ("model", Json.str "m1")]))) 0).1.fs
           (osPathJoin "raw_json" (pyStr (Json.str "abc") ++ ".json"))
           (Json.obj [("uuid", Json.str "abc"), ("model", Json.str "m2")]),
         db := (collect emptyState
           (some (mkEnvelope (Json.obj [("uuid", Json.str "abc"),
                                        ("model", Json.str "m1")]))) 0).1.db },
       500, none) :=
  ⟨rfl, rfl, rfl,
   c2_amended_duplicate_id_insert_fails _ _ (Json.str "abc") 1 rfl rfl rfl⟩

/-- C2 counterexample: the claim says a second ingest of the same id
succeeds and leaves the StructuredRecord holding the second ingest's
content.  On the code, ingesting `{uuid: "abc", model: "m1"}` and then
`{uuid: "abc", model: "m2"}` gives a 500 response for the second request,
the table still holds the first document, and the file holds the second —
the store is a plain `INSERT` against a primary key, not an upsert. -/
theorem c2_counterexample_second_ingest_fails :
    (collect (collect emptyState
        (some (mkEnvelope (Json.obj [("uuid", Json.str "abc"),
                                     ("model", Json.str "m1")]))) 0).1
      (some (mkEnvelope (Json.obj [("uuid", Json.str "abc"),
                                   ("model", Json.str "m2")]))) 1).2.1 = 500 ∧
    ((collect (collect emptyState
        (some (mkEnvelope (Json.obj [("uuid", Json.str "abc"),
                                     ("model", Json.str "m1")]))) 0).1
      (some (mkEnvelope (Json.obj [("uuid", Json.str "abc"),
                                   ("model", Json.str "m2")]))) 1).1.db.map
        (fun r => r.chat_data))
      = [Json.obj [("uuid", Json.str "abc"), ("model", Json.str "m1")]] ∧
    (collect (collect emptyState
        (some (mkEnvelope (Json.obj [("uuid", Json.str "abc"),
                                     ("model", Json.str "m1")]))) 0).1
      (some (mkEnvelope (Json.obj [("uuid", Json.str "abc"),
                                   ("model", Json.str "m2")]))) 1).1.fs
      = [("raw_json/abc.json",
          Json.obj [("uuid", Json.str "abc"), ("model", Json.str "m2")])] :=
  ⟨rfl, rfl, rfl⟩

/-- C6: ingest of a valid document whose id is not yet present succeeds, and
`GET /chat/{id}` then returns a body equal to the ingested document body. -/
theorem c6_ingest_then_get_roundtrip
    (st : ServerState) (dfs : List (String × Json)) (u : Json) (now : Nat)
    (hu : jsonLookup dfs "uuid" = some u)
    (ht : pyTruthy u = true)
    (hfresh : st.db.any (fun r => r.uuid == pyStr u) = false) :
    (collect st (some (mkEnvelope (Json.obj dfs))) now).2.1 = 200 ∧
    getChat (collect st (some (mkEnvelope (Json.obj dfs))) now).1 (pyStr u)
      = (200, some (Json.obj dfs)) := by
  rw [collect_fresh_id_success st dfs u now hu ht hfresh]
  refine ⟨rfl, ?_⟩
  unfold getChat getChatBody
  rw [list_find_append_singleton _ _ _ hfresh (by simp [mkRow])]
  rfl

theorem c6_ingest_then_get_roundtrip_witness :
    jsonLookup [("uuid", Json.str "abc123"), ("model", Json.str "gpt-4"),
                ("messages", Json.arr
                  [Json.obj [("role", Json.str "user"), ("content", Json.str "hi")],
                   Json.obj [("role", Json.str "assistant"),
                             ("content", Json.str "hello")]])] "uuid"
      = some (Json.str "abc123") ∧
    pyTruthy (Json.str "abc123") = true ∧
    (emptyState.db.any (fun r => r.uuid == pyStr (Json.str "abc123"))) = false ∧
    ((collect emptyState
        (some (mkEnvelope (Json.obj
          [("uuid", Json.str "abc123"), ("model", Json.str "gpt-4"),
           ("messages", Json.arr
             [Json.obj [("role", Json.str "user"), ("content", Json.str "hi")],
              Json.obj [("role", Json.str "assistant"),
                        ("content", Json.str "hello")]])]))) 7).2.1 = 200 ∧
     getChat (collect emptyState
        (some (mkEnvelope (Json.obj
          [("uuid", Json.str "abc123"), ("model", Json.str "gpt-4"),
           ("messages", Json.arr
             [Json.obj [("role", Json.str "user"), ("content", Json.str "hi")],
              Json.obj [("role", Json.str "assistant"),
                        ("content", Json.str "hello")]])]))) 7).1
        (pyStr (Json.str "abc123"))
       = (200, some (Json.obj
          [("uuid", Json.str "abc123"), ("model", Json.str "gpt-4"),
           ("messages", Json.arr
             [Json.obj [("role", Json.str "user"), ("content", Json.str "hi")],
              Json.obj [("role", Json.str "assistant"),
                        ("content", Json.str "hello")]])]))) :=
  ⟨rfl, rfl, rfl,
   c6_ingest_then_get_roundtrip emptyState _ (Json.str "abc123") 7 rfl rfl rfl⟩

/-- C9 counterexample: the claim says every accepted ingest writes its file
directly inside the flat store directory as `<id>.json`.  But the id is
spliced into `os.path.join("raw_json", f"{uuid}.json")` with no
sanitization, and `os.path.join` discards the first component when the
second is absolute: the accepted id `"/evil"` (truthy, so it passes the only
validation) makes the ingest succeed with status 200 while writing
`/evil.json` — a path outside the store directory. -/
theorem c9_counterexample_absolute_id_escapes :
    (collect emptyState
        (some (mkEnvelope (Json.obj [("uuid", Json.str "/evil")]))) 0).2.1 = 200 ∧
    (collect emptyState
        (some (mkEnvelope (Json.obj [("uuid", Json.str "/evil")]))) 0).1.fs
      = [("/evil.json", Json.obj [("uuid", Json.str "/evil")])] ∧
    strStartsWith "/evil.json" "raw_json/" = false :=
  ⟨rfl, rfl, rfl⟩

/-- C9 amended: for accepted string ids containing no `/`, the canonical
file is written exactly at `raw_json/<id>.json`, directly inside the flat
store directory, and the ingest touches no other file; ids containing path
separators (in particular absolute ones) escape the store, since the code
performs no sanitization. -/
theorem c9_amended_flat_store_for_slash_free_ids
    (st : ServerState) (dfs : List (String × Json)) (docId : String) (now : Nat)
    (hu : jsonLookup dfs "uuid" = some (Json.str docId))
    (hne : docId.data ≠ [])
    (hslash : ('/' : Char) ∉ docId.data) :
    (collect st (some (mkEnvelope (Json.obj dfs))) now).1.fs
        = setFile st.fs ("raw_json/" ++ docId ++ ".json") (Json.obj dfs) ∧
    (∃ name, "raw_json/" ++ docId ++ ".json" = "raw_json/" ++ name ∧
       ('/' : Char) ∉ name.data) := by
  have ht : pyTruthy (Json.str docId) = true := by
    cases hd : docId.data with
    | nil => exact absurd hd hne
    | cons c cs => simp [pyTruthy, hd]
  have hg : pyGetE (Json.obj dfs) "uuid" Json.null = Except.ok (Json.str docId) := by
    simp [pyGetE, hu]
  have hps : pyStr (Json.str docId) = docId := rfl
  have hsw : startsWithSlash (docId ++ ".json") = false := by
    unfold startsWithSlash
    rw [String.data_append]
    cases hd : docId.data with
    | nil => simp
    | cons c cs =>
      have hc : c ≠ '/' := by
        intro hcc
        exact hslash (hd ▸ hcc ▸ List.mem_cons_self c cs)
      simp [hc]
  have hpath : osPathJoin "raw_json" (docId ++ ".json")
      = "raw_json/" ++ docId ++ ".json" := by
    unfold osPathJoin
    rw [hsw]
    simp only [Bool.false_eq_true, if_false]
    apply String.ext
    simp only [String.data_append, List.append_assoc]
    rw [← List.append_assoc "raw_json".data]
    rw [show "raw_json".data ++ "/".data = "raw_json/".data from by decide]
  constructor
  · unfold collect collectBody
    dsimp only
    rw [unwrapEnvelope_mkEnvelope]
    dsimp only
    unfold processDocument
    rw [hg]
    dsimp only
    rw [ht, hps, hpath]
    cases hdup : st.db.any (fun r => r.uuid == docId) with
    | true => simp
    | false => simp
  · refine ⟨docId ++ ".json", (String.append_assoc "raw_json/" docId ".json"), ?_⟩
    rw [String.data_append]
    intro hmem
    rcases List.mem_append.mp hmem with hm | hm
    · exact hslash hm
    · revert hm; decide

theorem c9_amended_flat_store_for_slash_free_ids_witness :
    jsonLookup [("uuid", Json.str "abc")] "uuid" = some (Json.str "abc") ∧
    "abc".data ≠ [] ∧
    ('/' : Char) ∉ "abc".data ∧
    ((collect emptyState
        (some (mkEnvelope (Json.obj [("uuid", Json.str "abc")]))) 0).1.fs
        = setFile emptyState.fs ("raw_json/" ++ "abc" ++ ".json")
            (Json.obj [("uuid", Json.str "abc")]) ∧
     (∃ name, "raw_json/" ++ "abc" ++ ".json" = "raw_json/" ++ name ∧
        ('/' : Char) ∉ name.data)) :=
  ⟨rfl, by decide, by decide,
   c9_amended_flat_store_for_slash_free_ids emptyState _ "abc" 0 rfl
     (by decide) (by decide)⟩

/-! ## C5: the per-field extraction rules -/

/-- Spec wording: an element "with role r" — its `role` field is the string
`r`. -/
def specRoleIs (m : Json) (role : String) : Bool :=
  match m with
  | Json.obj mfs =>
      match jsonLookup mfs "role" with
      | some (Json.str r) => r == role
      | _ => false
  | _ => false

/-- Spec wording: "the content of" an element. -/
def specContent (m : Json) : Json :=
  match m with
  | Json.obj mfs => (jsonLookup mfs "content").getD Json.null
  | _ => Json.null

/-- Spec wording: the content of the first element with the given role, or
null when none exists. -/
def specScanContent (role : String) (msgs : List Json) : Json :=
  match msgs.find? (fun m => specRoleIs m role) with
  | some m => specContent m
  | none => Json.null

/-- Spec wording for `model_name`: the body's `model` field, `"unknown"`
when absent. -/
def specModelName (fs : List (String × Json)) : Json :=
  (jsonLookup fs "model").getD (Json.str "unknown")

/-- A message element on which the extraction scan cannot raise: a JSON
object carrying a `content` field. -/
def goodMessage (m : Json) : Bool :=
  match m with
  | Json.obj mfs => (jsonLookup mfs "content").isSome
  | _ => false

/-- `m.get('role') == role` agrees with the spec's role test on objects. -/
theorem pyEqStr_get_role (mfs : List (String × Json)) (role : String) :
    pyEqStr ((jsonLookup mfs "role").getD Json.null) role
      = specRoleIs (Json.obj mfs) role := by
  unfold specRoleIs
  cases h : jsonLookup mfs "role" with
  | none => simp [pyEqStr, h]
  | some v => cases v <;> simp [pyEqStr, h]

/-- On a list of well-formed message objects the generator scan returns the
spec's first-matching content (and raises nothing). -/
theorem nextContent_eq_specScan (role : String) (msgs : List Json)
    (hgood : ∀ m ∈ msgs, goodMessage m = true) :
    nextContent role msgs = Except.ok (specScanContent role msgs) := by
  induction msgs with
  | nil => rfl
  | cons m rest ih =>
    have hm := hgood m (List.mem_cons_self m rest)
    cases m with
    | null => simp [goodMessage] at hm
    | bool b => simp [goodMessage] at hm
    | num n => simp [goodMessage] at hm
    | str s => simp [goodMessage] at hm
    | arr xs => simp [goodMessage] at hm
    | obj mfs =>
      unfold nextContent
      dsimp only [pyGetE]
      rw [pyEqStr_get_role]
      unfold specScanContent
      cases hrole : specRoleIs (Json.obj mfs) role with
      | true =>
        have hfind : List.find? (fun m2 => specRoleIs m2 role) (Json.obj mfs :: rest)
            = some (Json.obj mfs) := by
          simp [List.find?, hrole]
        rw [hfind]
        simp only [if_true]
        unfold goodMessage at hm
        dsimp only at hm
        cases hc : jsonLookup mfs "content" with
        | none => rw [hc] at hm; simp at hm
        | some c =>
          unfold pySubscript specContent
          dsimp only
          rw [hc]
          rfl
      | false =>
        have hfind : List.find? (fun m2 => specRoleIs m2 role) (Json.obj mfs :: rest)
            = List.find? (fun m2 => specRoleIs m2 role) rest := by
          simp [List.find?, hrole]
        rw [hfind]
        simp only [Bool.false_eq_true, if_false]
        have hrec := ih (fun m2 hm2 => hgood m2 (List.mem_cons_of_mem _ hm2))
        unfold specScanContent at hrec
        exact hrec

/-- C5 counterexample: the claim says each output field follows its own
rule independently — in particular `model_name` is `"unknown"` only when the
body has no `model` field.  But one field's failure poisons all fields: on
`{model: "gpt-4", messages: [{role: "user"}]}` the first-user scan raises
`KeyError` (`content` missing), the whole extraction falls back to the
defaults, and `model_name` comes out `"unknown"` although `model` is present
and equals `"gpt-4"`. -/
theorem c5_counterexample_fields_not_independent :
    extract_chat_metadata
        (Json.obj [("model", Json.str "gpt-4"),
                   ("messages", Json.arr [Json.obj [("role", Json.str "user")]])])
      = defaultMetadata ∧
    jsonLookup [("model", Json.str "gpt-4"),
                ("messages", Json.arr [Json.obj [("role", Json.str "user")]])] "model"
      = some (Json.str "gpt-4") ∧
    defaultMetadata.model_name = Json.str "unknown" ∧
    Json.str "unknown" ≠ Json.str "gpt-4" :=
  ⟨rfl, rfl, rfl, by simp⟩

/-- C5 amended: the output fields do not follow their rules independently on
every body.  Whenever any single field's computation raises, the whole
extraction falls back and all four fields are the defaults (second
conjunct; the counterexample instantiates it with `model` present yet
`model_name = "unknown"`).  The per-field rules as the claim states them
hold in particular on every object body whose `messages` field is absent or
is an array of JSON objects each carrying a `content` field (first
conjunct): `model_name` is the `model` field or `"unknown"` exactly when it
is absent, `message_count` is the length of `messages` or 0 when absent,
and the first-`user` / last-`assistant` contents follow their scanning
rules, null when no such element exists. -/
theorem c5_amended_field_rules_and_fallback :
    (∀ (fs : List (String × Json)) (msgs : List Json),
        ((jsonLookup fs "messages" = none ∧ msgs = []) ∨
          jsonLookup fs "messages" = some (Json.arr msgs)) →
        (∀ m ∈ msgs, goodMessage m = true) →
        extract_chat_metadata (Json.obj fs) =
          { model_name := specModelName fs
            conversation_length := msgs.length
            first_user_message := specScanContent "user" msgs
            last_assistant_message := specScanContent "assistant" msgs.reverse }) ∧
    (∀ (d : Json) (e : Exc), tryExtract d = Except.error e →
        extract_chat_metadata d = defaultMetadata) := by
  constructor
  · intro fs msgs hmsgs hgood
    have h2 : (jsonLookup fs "messages").getD (Json.arr []) = Json.arr msgs := by
      rcases hmsgs with ⟨hnone, rfl⟩ | hsome
      · rw [hnone]; rfl
      · rw [hsome]; rfl
    have hfu := nextContent_eq_specScan "user" msgs hgood
    have hla := nextContent_eq_specScan "assistant" msgs.reverse
      (fun m hm => hgood m (List.mem_reverse.mp hm))
    unfold extract_chat_metadata tryExtract
    dsimp only [pyGetE]
    rw [h2]
    dsimp only [pyLen, pyIter, pyReversed]
    rw [hfu, hla]
    rfl
  · intro d e he
    unfold extract_chat_metadata
    rw [he]

theorem c5_amended_field_rules_and_fallback_witness :
    ((jsonLookup [("model", Json.str "gpt-4"),
                  ("messages", Json.arr
                    [Json.obj [("role", Json.str "user"), ("content", Json.str "hi")],
                     Json.obj [("role", Json.str "assistant"),
                               ("content", Json.str "hello")]])] "messages" = none ∧
      ([Json.obj [("role", Json.str "user"), ("content", Json.str "hi")],
        Json.obj [("role", Json.str "assistant"), ("content", Json.str "hello")]]
        : List Json) = []) ∨
     jsonLookup [("model", Json.str "gpt-4"),
                 ("messages", Json.arr
                   [Json.obj [("role", Json.str "user"), ("content", Json.str "hi")],
                    Json.obj [("role", Json.str "assistant"),
                              ("content", Json.str "hello")]])] "messages"
       = some (Json.arr
           [Json.obj [("role", Json.str "user"), ("content", Json.str "hi")],
            Json.obj [("role", Json.str "assistant"), ("content", Json.str "hello")]])) ∧
    extract_chat_metadata
      (Json.obj [("model", Json.str "gpt-4"),
                 ("messages", Json.arr
                   [Json.obj [("role", Json.str "user"), ("content", Json.str "hi")],
                    Json.obj [("role", Json.str "assistant"),
                              ("content", Json.str "hello")]])]) =
      { model_name := specModelName
          [("model", Json.str "gpt-4"),
           ("messages", Json.arr
             [Json.obj [("role", Json.str "user"), ("content", Json.str "hi")],
              Json.obj [("role", Json.str "assistant"), ("content", Json.str "hello")]])]
        conversation_length :=
          ([Json.obj [("role", Json.str "user"), ("content", Json.str "hi")],
            Json.obj [("role", Json.str "assistant"), ("content", Json.str "hello")]]
            : List Json).length
        first_user_message := specScanContent "user"
          [Json.obj [("role", Json.str "user"), ("content", Json.str "hi")],
           Json.obj [("role", Json.str "assistant"), ("content", Json.str "hello")]]
        last_assistant_message := specScanContent "assistant"
          ([Json.obj [("role", Json.str "user"), ("content", Json.str "hi")],
            Json.obj [("role", Json.str "assistant"),
                      ("content", Json.str "hello")]] : List Json).reverse } :=
  ⟨Or.inr rfl,
   c5_amended_field_rules_and_fallback.1 _ _ (Or.inr rfl) (by decide)⟩

/-! ## C8: search filter semantics -/

/-- The spec's reading of a supplied/absent `query` filter. -/
def specQueryFilter (query : Option String) (r : Row) : Bool :=
  match query with
  | none => true
  | some q => queryCond q r

/-- The spec's reading of a supplied/absent `model` filter. -/
def specModelFilter (model : Option String) (r : Row) : Bool :=
  match model with
  | none => true
  | some m => modelCond m r

/-- The spec's reading of a supplied/absent `min_length` filter. -/
def specMinLenFilter (min_length : Option Int) (r : Row) : Bool :=
  match min_length with
  | none => true
  | some n => minLenCond n r

/-- The spec's search predicate (second definition, following the spec's
words, for the refinement comparison): a record matches when it satisfies
every supplied filter in AND conjunction; an absent filter imposes no
constraint. -/
def specSearchPred (query : Option String) (model : Option String)
    (min_length : Option Int) (r : Row) : Bool :=
  (specQueryFilter query r && specModelFilter model r) &&
    specMinLenFilter min_length r

/-- Membership in an ordered insert. -/
theorem mem_insertDesc (r b : Row) (l : List Row) (h : b ∈ insertDesc r l) :
    b = r ∨ b ∈ l := by
  induction l with
  | nil =>
    simp only [insertDesc, List.mem_singleton] at h
    exact Or.inl h
  | cons x xs ih =>
    unfold insertDesc at h
    by_cases hc : x.collected_at ≥ r.collected_at
    · rw [if_pos hc] at h
      rcases List.mem_cons.mp h with rfl | h2
      · exact Or.inr (List.mem_cons_self b xs)
      · rcases ih h2 with h3 | h3
        · exact Or.inl h3
        · exact Or.inr (List.mem_cons_of_mem _ h3)
    · rw [if_neg hc] at h
      rcases List.mem_cons.mp h with rfl | h2
      · exact Or.inl rfl
      · exact Or.inr h2

/-- The ordered insert keeps the list sorted by `collected_at`
descending. -/
theorem pairwise_insertDesc (r : Row) (l : List Row)
    (h : l.Pairwise (fun a b => b.collected_at ≤ a.collected_at)) :
    (insertDesc r l).Pairwise (fun a b => b.collected_at ≤ a.collected_at) := by
  induction l with
  | nil => simp [insertDesc]
  | cons x xs ih =>
    rw [List.pairwise_cons] at h
    obtain ⟨hx, hxs⟩ := h
    unfold insertDesc
    by_cases hc : x.collected_at ≥ r.collected_at
    · rw [if_pos hc]
      rw [List.pairwise_cons]
      refine ⟨?_, ih hxs⟩
      intro b hb
      rcases mem_insertDesc r b xs hb with rfl | hbxs
      · exact hc
      · exact hx b hbxs
    · rw [if_neg hc]
      rw [List.pairwise_cons]
      constructor
      · intro b hb
        rcases List.mem_cons.mp hb with rfl | hbxs
        · omega
        · have := hx b hbxs
          omega
      · exact List.pairwise_cons.mpr ⟨hx, hxs⟩

/-- `ORDER BY collected_at DESC`: the modelled sort is sorted. -/
theorem pairwise_sortByCollectedDesc (l : List Row) :
    (sortByCollectedDesc l).Pairwise
      (fun a b => b.collected_at ≤ a.collected_at) := by
  induction l with
  | nil => simp [sortByCollectedDesc]
  | cons x xs ih => exact pairwise_insertDesc x _ ih

def rowX : Row :=
  { uuid := "u1", collected_at := 3, json_path := "raw_json/u1.json",
    chat_data := Json.obj [("uuid", Json.str "u1")],
    model_name := some "x", conversation_length := 2,
    first_user_message := some "hi", last_assistant_message := some "yo" }

/-- C8 counterexample: the claim quantifies over every combination of
supplied filters, but a supplied empty-string `model` filter is falsy in
Python, so the code drops the condition entirely: `search(model="")`
returns a record whose `model_name` is `"x"` — a record that does not
satisfy the supplied filter `model_name = ""`. -/
theorem c8_counterexample_empty_model_filter :
    searchChats [rowX] none (some "") none 10 = [summaryOfRow rowX] ∧
    rowX.model_name ≠ some "" :=
  ⟨rfl, by simp [rowX]⟩

/-- C8 amended: provided a supplied `query` or `model` filter is a
non-empty string (the handler treats falsy parameters — `None`, `""`, `0` —
as absent; for `query` and `min_length` the dropped empty/zero condition is
vacuous anyway, but for `model` it is not), search returns exactly the
records satisfying all supplied filters in AND conjunction — in particular
`min_length = n` keeps only records with `message_count ≥ n` and absent
filters impose no constraint — ordered by `collected_at` descending and
capped at `limit` rows, projected to their summary columns. -/
theorem c8_amended_search_and_semantics
    (db : List Row) (query model : Option String) (min_length : Option Int)
    (limit : Nat) (hq : query ≠ some "") (hm : model ≠ some "") :
    searchChats db query model min_length limit =
      ((sortByCollectedDesc
          (db.filter (specSearchPred query model min_length))).take limit).map
        summaryOfRow ∧
    (searchChats db query model min_length limit).Pairwise
      (fun a b => b.collected_at ≤ a.collected_at) ∧
    (searchChats db query model min_length limit).length ≤ limit := by
  have hpt : ∀ r,
      (((if strTruthyOpt query then [queryCond (query.getD "")] else []) ++
        (if strTruthyOpt model then [modelCond (model.getD "")] else [])) ++
       (if intTruthyOpt min_length then [minLenCond (min_length.getD 0)] else [])).all
          (fun c => c r)
        = specSearchPred query model min_length r := by
    intro r
    unfold specSearchPred
    rw [List.all_append, List.all_append]
    have e1 : (if strTruthyOpt query then [queryCond (query.getD "")] else []).all
        (fun c => c r) = specQueryFilter query r := by
      cases hqq : query with
      | none => rfl
      | some q =>
        have hq2 : q ≠ "" := fun hqe => hq (by rw [hqq, hqe])
        have hqt : strTruthyOpt (some q) = true := by
          unfold strTruthyOpt
          cases hd : q.data with
          | nil => exact absurd (String.ext hd) hq2
          | cons c cs => simp [hd]
        rw [hqt]
        simp [specQueryFilter]
    have e2 : (if strTruthyOpt model then [modelCond (model.getD "")] else []).all
        (fun c => c r) = specModelFilter model r := by
      cases hmm : model with
      | none => rfl
      | some m =>
        have hm2 : m ≠ "" := fun hme => hm (by rw [hmm, hme])
        have hmt : strTruthyOpt (some m) = true := by
          unfold strTruthyOpt
          cases hd : m.data with
          | nil => exact absurd (String.ext hd) hm2
          | cons c cs => simp [hd]
        rw [hmt]
        simp [specModelFilter]
    have e3 : (if intTruthyOpt min_length then [minLenCond (min_length.getD 0)] else []).all
        (fun c => c r) = specMinLenFilter min_length r := by
      cases hml : min_length with
      | none => rfl
      | some n =>
        by_cases hn : n = 0
        · subst hn
          have h0 : intTruthyOpt (some 0) = false := rfl
          rw [h0]
          simp [specMinLenFilter, minLenCond, Int.natCast_nonneg]
        · have hnt : intTruthyOpt (some n) = true := by simp [intTruthyOpt, hn]
          rw [hnt]
          simp [specMinLenFilter]
    rw [e1, e2, e3]
  have hfilter :
      db.filter (fun r =>
        (((if strTruthyOpt query then [queryCond (query.getD "")] else []) ++
          (if strTruthyOpt model then [modelCond (model.getD "")] else [])) ++
         (if intTruthyOpt min_length then [minLenCond (min_length.getD 0)] else [])).all
            (fun c => c r))
        = db.filter (specSearchPred query model min_length) :=
    List.filter_congr (fun r _ => hpt r)
  have hmain : searchChats db query model min_length limit =
      ((sortByCollectedDesc
          (db.filter (specSearchPred query model min_length))).take limit).map
        summaryOfRow := by
    unfold searchChats
    dsimp only
    rw [hfilter]
  refine ⟨hmain, ?_, ?_⟩
  · rw [hmain]
    rw [List.pairwise_map]
    exact (pairwise_sortByCollectedDesc _).sublist (List.take_sublist _ _)
  · rw [hmain, List.length_map, List.length_take]
    exact min_le_left _ _

theorem c8_amended_search_and_semantics_witness :
    (none : Option String) ≠ some "" ∧ (some "x" : Option String) ≠ some "" ∧
    (searchChats [rowX] none (some "x") (some 2) 10 =
        ((sortByCollectedDesc
            ([rowX].filter (specSearchPred none (some "x") (some 2)))).take 10).map
          summaryOfRow ∧
     (searchChats [rowX] none (some "x") (some 2) 10).Pairwise
       (fun a b => b.collected_at ≤ a.collected_at) ∧
     (searchChats [rowX] none (some "x") (some 2) 10).length ≤ 10) :=
  ⟨by simp, by simp,
   c8_amended_search_and_semantics [rowX] none (some "x") (some 2) 10
     (by simp) (by simp)⟩
